import Mathlib

/-!
Verification of the execution-state core of the haybale symbolic executor
(src/state.rs), as a shallow embedding in Lean 4.

The `State` structure, its operations (assert, check, check_with_extra_constraints,
record_bv_result, record_bool_result, operand_to_bv, operand_to_bool,
save_backtracking_point, revert_to_backtracking_point), the `BacktrackPoint`
structure and `name_to_sym` are translated from src/state.rs.

The collaborators used by state.rs but whose source files are not present
(the Solver wrapper around Z3, the VarMap value table, and the size function)
are modelled from the specification, as noted on each definition.
-/

namespace Haybale

/-- llvm_ir::Name : a local-value identity, either a string name or a number.
The numeric variant carries a usize, modelled as a Nat. -/
inductive Name where
  | name (s : String)
  | number (n : Nat)
deriving DecidableEq, Repr

/-- z3::Symbol : a solver-visible symbol, either a string or a 32-bit integer. -/
inductive Sym where
  | string (s : String)
  | int (n : Nat)
deriving DecidableEq, Repr

/-- Translation of `name_to_sym` in src/state.rs:
`Name::Name(s) => z3::Symbol::String(s)`,
`Name::Number(n) => z3::Symbol::Int(n as u32)`.
The `as u32` cast truncates the usize to 32 bits, modelled as `% 2^32`. -/
def name_to_sym : Name → Sym
  | Name.name s => Sym.string s
  | Name.number n => Sym.int (n % 4294967296)

/-- Declared result types of instructions, as used by state.rs: llvm_ir integer
types (of a given bit width) and pointer types. `Type::bool()` is the 1-bit
integer type. -/
inductive Ty where
  | integer (bits : Nat)
  | pointer
deriving DecidableEq, Repr

/-- llvm_ir `Type::bool()` is the 1-bit integer type. -/
def Ty.bool : Ty := Ty.integer 1

/-- Modelled from the spec: the `size` function (crate::size, source file not
present under src/) maps a declared result type to its bit width; the address
space is fixed at 64 bits. -/
def size : Ty → Nat
  | Ty.integer bits => bits
  | Ty.pointer => 64

/-- Symbolic bit-vector expressions, as built by state.rs: `BV::from_u64`
constants and `BV::new_const` named symbolic constants, each carrying its
bit width. -/
inductive BVExpr where
  | const (value : Nat) (bits : Nat)
  | var (sym : Sym) (bits : Nat)
deriving DecidableEq, Repr

/-- The bit width of a bit-vector expression (its Z3 sort width). -/
def bvWidth : BVExpr → Nat
  | BVExpr.const _ bits => bits
  | BVExpr.var _ bits => bits

/-- Symbolic boolean expressions, as built by state.rs: `Bool::from_bool`
constants, `Bool::new_const` named symbolic constants, and the equalities
produced by `_eq` on bit-vectors and on booleans. -/
inductive BoolExpr where
  | const (b : Bool)
  | var (sym : Sym)
  | eqBV (x y : BVExpr)
  | eqBool (x y : BoolExpr)
deriving DecidableEq, Repr

/-- An assignment of concrete values to symbolic constants: a bit-vector value
for each named bit-vector constant at each width, and a boolean value for each
named boolean constant. -/
structure Assignment where
  bv : Sym → Nat → Nat
  bool : Sym → Bool

/-- Evaluate a bit-vector expression under an assignment; values are reduced
modulo 2^width as in the solver's fixed-width semantics. -/
def evalBV (a : Assignment) : BVExpr → Nat
  | BVExpr.const v bits => v % 2 ^ bits
  | BVExpr.var s bits => a.bv s bits % 2 ^ bits

/-- Evaluate a boolean expression under an assignment. -/
def evalBool (a : Assignment) : BoolExpr → Bool
  | BoolExpr.const b => b
  | BoolExpr.var s => a.bool s
  | BoolExpr.eqBV x y => decide (evalBV a x = evalBV a y)
  | BoolExpr.eqBool x y => evalBool a x == evalBool a y

/-- A list of constraints is satisfiable when some assignment makes every
constraint in it evaluate to true. -/
def Satisfiable (cs : List BoolExpr) : Prop :=
  ∃ a : Assignment, ∀ c ∈ cs, evalBool a c = true

/-- Modelled from the spec: the Solver collaborator (crate::solver, source file
not present under src/) holds the current conjunction of asserted boolean
constraints as a stack of assumption frames over a base level. `base` holds
assertions made with no assumption frame open; `frames` holds the open
assumption frames, innermost first. The single-slot satisfiability-verdict
cache is an optimization that does not affect the constraint content and is
not modelled. -/
structure Solver where
  base : List BoolExpr
  frames : List (List BoolExpr)
deriving DecidableEq, Repr

namespace Solver

/-- Modelled from the spec: a fresh solver has no constraints and no open
assumption frames. -/
def new : Solver := { base := [], frames := [] }

/-- Modelled from the spec: `assert` adds the constraint to the current
(innermost open) frame, or to the base level when no frame is open. -/
def assert (c : BoolExpr) (s : Solver) : Solver :=
  match s.frames with
  | [] => { s with base := c :: s.base }
  | f :: rest => { s with frames := (c :: f) :: rest }

/-- Modelled from the spec: `push` opens a new (empty) assumption frame. -/
def push (s : Solver) : Solver :=
  { s with frames := [] :: s.frames }

/-- Modelled from the spec: `pop n` closes the n innermost assumption frames,
discarding every constraint asserted inside them. -/
def pop (n : Nat) (s : Solver) : Solver :=
  { s with frames := s.frames.drop n }

/-- All live constraints: the conjunction over every open frame and the base. -/
def allConstraints (s : Solver) : List BoolExpr :=
  s.frames.flatten ++ s.base

/-- Modelled from the spec: `check` reports whether the current full constraint
conjunction is satisfiable (the satisfiability verdict computed by the
external Z3 engine). -/
def check (s : Solver) : Prop :=
  Satisfiable s.allConstraints

/-- Modelled from the spec: `check_with_extra_constraints` pushes a temporary
frame, asserts each extra condition into it, checks satisfiability, and pops
the frame, so the permanent store is left unchanged. Returns the verdict and
the resulting solver. -/
def check_with_extra_constraints (s : Solver) (conds : List BoolExpr) :
    Prop × Solver :=
  let s1 := conds.foldl (fun t c => t.assert c) s.push
  (Satisfiable s1.allConstraints, s1.pop 1)

end Solver

/-- Modelled from the spec: the VarMap value table (crate::varmap, source file
not present under src/) maps local-value identities to their symbolic
bit-vector or boolean expressions; lookup of an unbound identity has no
answer (surfaced by state.rs as an unbound-variable condition). -/
structure VarMap where
  bvVars : Name → Option BVExpr
  boolVars : Name → Option BoolExpr

namespace VarMap

/-- Modelled from the spec: a fresh value table has no bindings. -/
def new : VarMap := { bvVars := fun _ => none, boolVars := fun _ => none }

/-- Modelled from the spec: bind a name to a bit-vector expression,
overwriting any prior binding for that name. -/
def add_bv_var (m : VarMap) (n : Name) (e : BVExpr) : VarMap :=
  { m with bvVars := fun x => if x = n then some e else m.bvVars x }

/-- Modelled from the spec: bind a name to a boolean expression, overwriting
any prior binding for that name. -/
def add_bool_var (m : VarMap) (n : Name) (e : BoolExpr) : VarMap :=
  { m with boolVars := fun x => if x = n then some e else m.boolVars x }

end VarMap

/-- The error conditions surfaced by state.rs (panics and failed lookups),
following the spec's taxonomy. -/
inductive Err where
  | UnboundVariable
  | TypeMismatch
  | UnsupportedOperand
deriving DecidableEq, Repr

/-- llvm_ir::Operand as consumed by state.rs: an integer constant
(`Operand::ConstantOperand(Constant::Int)`), a reference to a local value
(`Operand::LocalOperand`, carrying a declared type annotation), a metadata
operand, or any other (non-integer) constant form. -/
inductive Operand where
  | constantInt (bits : Nat) (value : Nat)
  | localOperand (name : Name) (ty : Ty)
  | metadataOperand
  | constantOther
deriving DecidableEq, Repr

/-- An instruction node that produces a typed result
(llvm_ir::instruction::HasResult): its result identity and declared type. -/
structure Instr where
  result : Name
  ty : Ty
deriving DecidableEq, Repr

/-- The function identity carried in a backtracking marker; used opaquely by
state.rs (`&'func Function`). -/
abbrev Func := String

/-- BacktrackPoint from src/state.rs: the function and basic block at which to
resume execution, the block executed just prior, and the constraint to add
before restarting execution at `next_bb`. -/
structure BacktrackPoint where
  in_func : Func
  next_bb : Name
  prev_bb : Name
  constraint : BoolExpr
deriving DecidableEq, Repr

/-- State from src/state.rs: the value table, the solver, and the stack of
backtracking points (list head = most recently pushed, matching the top of the
Rust Vec). The memory and allocator components are independent collaborators
that none of the operations verified here touch, so they are not carried. -/
structure State where
  varmap : VarMap
  solver : Solver
  backtrack_points : List BacktrackPoint

namespace State

/-- `State::new`: empty bindings, empty constraint store with no open
assumption frames, empty marker stack. -/
def new : State :=
  { varmap := VarMap.new, solver := Solver.new, backtrack_points := [] }

/-- `State::assert`: add `cond` as a constraint. -/
def assert (s : State) (cond : BoolExpr) : State :=
  { s with solver := s.solver.assert cond }

/-- `State::check`: whether the current constraints are satisfiable. -/
def check (s : State) : Prop :=
  s.solver.check

/-- `State::check_with_extra_constraints`: whether the current constraints
plus `conds` are together satisfiable, without permanently adding `conds`. -/
def check_with_extra_constraints (s : State) (conds : List BoolExpr) :
    Prop × State :=
  let r := s.solver.check_with_extra_constraints conds
  (r.1, { s with solver := r.2 })

/-- `State::add_bv_var`: associate the given name with the given bit-vector. -/
def add_bv_var (s : State) (n : Name) (e : BVExpr) : State :=
  { s with varmap := s.varmap.add_bv_var n e }

/-- `State::add_bool_var`: associate the given name with the given boolean. -/
def add_bool_var (s : State) (n : Name) (e : BoolExpr) : State :=
  { s with varmap := s.varmap.add_bool_var n e }

/-- `State::record_bv_result`: create a named symbolic constant sized to the
instruction's declared result type, assert its equality with `resultval`, and
bind the result identity to the constant. The equality `result._eq(&resultval)`
is well-sorted only when the widths agree; a width mismatch is surfaced as a
type-mismatch failure (the sort check lives in the external solver layer). -/
def record_bv_result (s : State) (thing : Instr) (resultval : BVExpr) :
    Except Err State :=
  let bits := size thing.ty
  if bvWidth resultval = bits then
    let result := BVExpr.var (name_to_sym thing.result) bits
    let s1 := s.assert (BoolExpr.eqBV result resultval)
    Except.ok (s1.add_bv_var thing.result result)
  else
    Except.error Err.TypeMismatch

/-- `State::record_bool_result`: `assert_eq!(thing.get_type(), Type::bool())`
(a type-mismatch failure otherwise), then create a named boolean constant,
assert its equality with `resultval`, and bind the result identity to it. -/
def record_bool_result (s : State) (thing : Instr) (resultval : BoolExpr) :
    Except Err State :=
  if thing.ty = Ty.bool then
    let result := BoolExpr.var (name_to_sym thing.result)
    let s1 := s.assert (BoolExpr.eqBool result resultval)
    Except.ok (s1.add_bool_var thing.result result)
  else
    Except.error Err.TypeMismatch

/-- `State::operand_to_bv`: an integer constant becomes `BV::from_u64`; a local
operand is looked up in the value table (UnboundVariable when unbound, the
type annotation is ignored); a metadata operand panics ("Can't convert") and
any other constant form is unimplemented, both surfaced as
UnsupportedOperand. -/
def operand_to_bv (s : State) (op : Operand) : Except Err BVExpr :=
  match op with
  | Operand.constantInt bits value => Except.ok (BVExpr.const value bits)
  | Operand.localOperand n _ =>
      match s.varmap.bvVars n with
      | some e => Except.ok e
      | none => Except.error Err.UnboundVariable
  | Operand.metadataOperand => Except.error Err.UnsupportedOperand
  | Operand.constantOther => Except.error Err.UnsupportedOperand

/-- `State::operand_to_bool`: an integer constant must have exactly 1 bit
(`assert_eq!(*bits, 1)`, a type-mismatch failure otherwise) and becomes
`Bool::from_bool(value != 0)`; a local operand is looked up in the value table
(UnboundVariable when unbound, the type annotation is ignored); every other
operand panics ("Can't convert"), surfaced as UnsupportedOperand. -/
def operand_to_bool (s : State) (op : Operand) : Except Err BoolExpr :=
  match op with
  | Operand.constantInt bits value =>
      if bits = 1 then Except.ok (BoolExpr.const (value != 0))
      else Except.error Err.TypeMismatch
  | Operand.localOperand n _ =>
      match s.varmap.boolVars n with
      | some e => Except.ok e
      | none => Except.error Err.UnboundVariable
  | Operand.metadataOperand => Except.error Err.UnsupportedOperand
  | Operand.constantOther => Except.error Err.UnsupportedOperand

/-- `State::save_backtracking_point`: push a new solver assumption frame and
push a marker capturing the resume location and the deferred constraint. The
constraint is not asserted. -/
def save_backtracking_point (s : State) (in_func : Func) (next_bb prev_bb : Name)
    (constraint : BoolExpr) : State :=
  { s with
      solver := s.solver.push
      backtrack_points :=
        { in_func := in_func, next_bb := next_bb, prev_bb := prev_bb
          constraint := constraint } :: s.backtrack_points }

/-- `State::revert_to_backtracking_point`: if a marker exists, pop it, pop one
solver assumption frame, assert the marker's deferred constraint, and return
the resume location together with the updated state; otherwise return none and
the state unchanged. -/
def revert_to_backtracking_point (s : State) :
    Option (Func × Name × Name) × State :=
  match s.backtrack_points with
  | [] => (none, s)
  | bp :: rest =>
      let s1 : State := { s with solver := s.solver.pop 1, backtrack_points := rest }
      let s2 := s1.assert bp.constraint
      (some (bp.in_func, bp.next_bb, bp.prev_bb), s2)

end State

/-- One call in a sequence of backtracking operations, for stating the
frame-depth invariant. -/
inductive Op where
  | save (in_func : Func) (next_bb prev_bb : Name) (constraint : BoolExpr)
  | revert

/-- Apply one backtracking operation to a state. -/
def applyOp (s : State) : Op → State
  | Op.save f nb pb c => s.save_backtracking_point f nb pb c
  | Op.revert => s.revert_to_backtracking_point.2

/-- Assert a list of constraints in order (a run of `State::assert` calls). -/
def State.assertAll (s : State) (cs : List BoolExpr) : State :=
  cs.foldl (fun t c => t.assert c) s

/-- Assert a list of constraints in order on the solver. -/
def Solver.assertList (s : Solver) (cs : List BoolExpr) : Solver :=
  cs.foldl (fun t c => t.assert c) s

lemma Solver.assertList_cons_frame (cs : List BoolExpr) (base f : List BoolExpr)
    (rest : List (List BoolExpr)) :
    Solver.assertList ⟨base, f :: rest⟩ cs =
      ⟨base, (cs.foldl (fun g c => c :: g) f) :: rest⟩ := by
  induction cs generalizing f with
  | nil => rfl
  | cons c cs ih => exact ih (c :: f)

lemma State.assertAll_eq (s : State) (cs : List BoolExpr) :
    State.assertAll s cs = { s with solver := Solver.assertList s.solver cs } := by
  induction cs generalizing s with
  | nil => rfl
  | cons c cs ih => exact ih (s.assert c)

lemma Solver.frames_length_assert (t : Solver) (c : BoolExpr) :
    (t.assert c).frames.length = t.frames.length := by
  cases h : t.frames <;> simp [Solver.assert, h]

lemma Solver.allConstraints_assert (t : Solver) (c : BoolExpr) :
    (t.assert c).allConstraints = c :: t.allConstraints := by
  cases h : t.frames <;> simp [Solver.assert, Solver.allConstraints, h]

lemma Satisfiable_of_mem_iff {l1 l2 : List BoolExpr}
    (h : ∀ c, c ∈ l1 ↔ c ∈ l2) : Satisfiable l1 ↔ Satisfiable l2 := by
  constructor <;> rintro ⟨a, ha⟩ <;> exact ⟨a, fun c hc => ha c (by simp [h c] at hc ⊢; exact hc)⟩

lemma inv_applyOp (s : State) (op : Op)
    (h : s.solver.frames.length = s.backtrack_points.length) :
    (applyOp s op).solver.frames.length = (applyOp s op).backtrack_points.length := by
  obtain ⟨vm, sol, btp⟩ := s
  cases op with
  | save f nb pb c =>
      simp [applyOp, State.save_backtracking_point, Solver.push] at h ⊢
      omega
  | revert =>
      cases btp with
      | nil => exact h
      | cons bp rest =>
          simp [applyOp, State.revert_to_backtracking_point, State.assert,
            Solver.frames_length_assert, Solver.pop] at h ⊢
          omega

lemma inv_foldl (ops : List Op) :
    ∀ s : State, s.solver.frames.length = s.backtrack_points.length →
      (ops.foldl applyOp s).solver.frames.length =
        (ops.foldl applyOp s).backtrack_points.length := by
  induction ops with
  | nil => intro s h; exact h
  | cons op ops ih => intro s h; exact ih _ (inv_applyOp s op h)

/-- C1: for every state, revert_to_backtracking_point returns none when the
marker stack is empty (leaving the state unchanged); otherwise — here stated
for a state obtained by saving a backtracking point and then asserting any
run of constraints — it pops the marker pushed by the matching
save_backtracking_point (LIFO), pops exactly one solver assumption frame
(discarding every constraint asserted since that save), asserts the marker's
deferred constraint into the now-current frame, and returns the marker's
(function, next_block, prev_block) resume tuple. -/
theorem revert_to_backtracking_point_spec :
    (∀ s : State, s.backtrack_points = [] →
        s.revert_to_backtracking_point = (none, s)) ∧
    (∀ (s : State) (f : Func) (nb pb : Name) (c : BoolExpr) (cs : List BoolExpr),
        (State.assertAll (s.save_backtracking_point f nb pb c) cs).revert_to_backtracking_point =
          (some (f, nb, pb), { s with solver := s.solver.assert c })) := by
  constructor
  · intro s h
    obtain ⟨vm, sol, btp⟩ := s
    simp only at h
    subst h
    rfl
  · intro s f nb pb c cs
    obtain ⟨vm, ⟨sbase, sframes⟩, btp⟩ := s
    rw [State.assertAll_eq]
    show ({ varmap := vm,
            solver := Solver.assertList ⟨sbase, [] :: sframes⟩ cs,
            backtrack_points := _ } : State).revert_to_backtracking_point = _
    rw [Solver.assertList_cons_frame]
    rfl

/-- Witness for C1 at a concrete state: a fresh state has an empty marker
stack, and reverting it returns none with the state unchanged. -/
theorem revert_to_backtracking_point_spec_witness :
    State.new.revert_to_backtracking_point = (none, State.new) :=
  revert_to_backtracking_point_spec.1 State.new rfl

/-- C2: starting from new(), after any sequence of save_backtracking_point and
revert_to_backtracking_point calls, the number of open solver assumption
frames equals the number of markers on the backtracking stack. -/
theorem frame_depth_equals_marker_depth (ops : List Op) :
    (ops.foldl applyOp State.new).solver.frames.length =
      (ops.foldl applyOp State.new).backtrack_points.length :=
  inv_foldl ops State.new rfl

/-- C3: save_backtracking_point pushes exactly one new solver assumption frame
and exactly one marker capturing (function, next_block, prev_block,
constraint), and does not assert the constraint: the set of live constraints,
and hence the satisfiability of the constraint store, is unchanged. -/
theorem save_backtracking_point_spec (s : State) (f : Func) (nb pb : Name)
    (c : BoolExpr) :
    (s.save_backtracking_point f nb pb c).solver.frames.length =
        s.solver.frames.length + 1 ∧
    (s.save_backtracking_point f nb pb c).backtrack_points =
        { in_func := f, next_bb := nb, prev_bb := pb, constraint := c }
          :: s.backtrack_points ∧
    (s.save_backtracking_point f nb pb c).solver.allConstraints =
        s.solver.allConstraints ∧
    ((s.save_backtracking_point f nb pb c).check ↔ s.check) := by
  refine ⟨rfl, rfl, ?_, ?_⟩
  · simp [State.save_backtracking_point, Solver.push, Solver.allConstraints]
  · simp [State.check, Solver.check, State.save_backtracking_point, Solver.push,
      Solver.allConstraints]

lemma foldl_cons_eq_reverse_append (l acc : List BoolExpr) :
    l.foldl (fun g c => c :: g) acc = l.reverse ++ acc := by
  induction l generalizing acc with
  | nil => rfl
  | cons c l ih => rw [List.foldl_cons, ih]; simp

lemma Solver.check_with_extra_eq (base : List BoolExpr)
    (frames : List (List BoolExpr)) (conds : List BoolExpr) :
    Solver.check_with_extra_constraints ⟨base, frames⟩ conds =
      (Satisfiable (conds.reverse ++ (frames.flatten ++ base)), ⟨base, frames⟩) := by
  show (Satisfiable (Solver.assertList ⟨base, [] :: frames⟩ conds).allConstraints,
        (Solver.assertList ⟨base, [] :: frames⟩ conds).pop 1) = _
  rw [Solver.assertList_cons_frame, foldl_cons_eq_reverse_append]
  simp [Solver.allConstraints, Solver.pop]

/-- C4: check_with_extra_constraints reports the satisfiability of the
conjunction of the current constraints and the extra conditions, and leaves
the permanent constraint store unchanged: the resulting state equals the
original, and a subsequent check() reflects only the permanent constraints'
satisfiability. -/
theorem check_with_extra_constraints_spec (s : State) (conds : List BoolExpr) :
    ((s.check_with_extra_constraints conds).1 ↔
        Satisfiable (conds ++ s.solver.allConstraints)) ∧
    (s.check_with_extra_constraints conds).2 = s ∧
    ((s.check_with_extra_constraints conds).2.check ↔
        Satisfiable s.solver.allConstraints) := by
  obtain ⟨vm, ⟨sbase, sframes⟩, btp⟩ := s
  have key := Solver.check_with_extra_eq sbase sframes conds
  have h1 : (State.check_with_extra_constraints
        ⟨vm, ⟨sbase, sframes⟩, btp⟩ conds).1 =
      Satisfiable (conds.reverse ++ (sframes.flatten ++ sbase)) := by
    show (Solver.check_with_extra_constraints ⟨sbase, sframes⟩ conds).1 = _
    rw [key]
  have h2 : (State.check_with_extra_constraints
        ⟨vm, ⟨sbase, sframes⟩, btp⟩ conds).2 = ⟨vm, ⟨sbase, sframes⟩, btp⟩ := by
    show ({ varmap := vm,
            solver := (Solver.check_with_extra_constraints ⟨sbase, sframes⟩ conds).2,
            backtrack_points := btp } : State) = _
    rw [key]
  refine ⟨?_, h2, ?_⟩
  · rw [h1]
    exact Satisfiable_of_mem_iff (fun c => by
      simp [Solver.allConstraints, List.mem_append, List.mem_reverse])
  · rw [h2]
    exact Iff.rfl

/-- C5: on an instruction whose declared result type matches the supplied
value, record_bv_result (resp. record_bool_result) succeeds, binds the
instruction's result identity to a named symbolic constant sized to the
declared result type (not to the supplied value itself), and adds to the
constraint store exactly the equality between that constant and the supplied
value. -/
theorem record_result_spec (s : State) (thing : Instr) (bv : BVExpr)
    (b : BoolExpr) :
    (bvWidth bv = size thing.ty →
      ∃ s1 : State,
        s.record_bv_result thing bv = Except.ok s1 ∧
        s1.varmap.bvVars thing.result =
          some (BVExpr.var (name_to_sym thing.result) (size thing.ty)) ∧
        s1.solver.allConstraints =
          BoolExpr.eqBV (BVExpr.var (name_to_sym thing.result) (size thing.ty)) bv
            :: s.solver.allConstraints) ∧
    (thing.ty = Ty.bool →
      ∃ s1 : State,
        s.record_bool_result thing b = Except.ok s1 ∧
        s1.varmap.boolVars thing.result =
          some (BoolExpr.var (name_to_sym thing.result)) ∧
        s1.solver.allConstraints =
          BoolExpr.eqBool (BoolExpr.var (name_to_sym thing.result)) b
            :: s.solver.allConstraints) := by
  constructor
  · intro h
    refine ⟨(s.assert (BoolExpr.eqBV
          (BVExpr.var (name_to_sym thing.result) (size thing.ty)) bv)).add_bv_var
        thing.result (BVExpr.var (name_to_sym thing.result) (size thing.ty)),
        ?_, ?_, ?_⟩
    · simp [State.record_bv_result, h]
    · simp [State.add_bv_var, VarMap.add_bv_var, State.assert]
    · simp [State.add_bv_var, State.assert, Solver.allConstraints_assert]
  · intro h
    refine ⟨(s.assert (BoolExpr.eqBool
          (BoolExpr.var (name_to_sym thing.result)) b)).add_bool_var
        thing.result (BoolExpr.var (name_to_sym thing.result)), ?_, ?_, ?_⟩
    · simp [State.record_bool_result, h]
    · simp [State.add_bool_var, VarMap.add_bool_var, State.assert]
    · simp [State.add_bool_var, State.assert, Solver.allConstraints_assert]

/-- Witness for C5: recording a width-8 value on an i8-typed instruction and a
boolean value on an i1-typed instruction both succeed with the stated binding
and constraint. -/
theorem record_result_spec_witness :
    (∃ s1 : State,
        State.new.record_bv_result
            { result := Name.number 1, ty := Ty.integer 8 } (BVExpr.const 3 8) =
          Except.ok s1 ∧
        s1.varmap.bvVars (Name.number 1) =
          some (BVExpr.var (name_to_sym (Name.number 1)) (size (Ty.integer 8))) ∧
        s1.solver.allConstraints =
          BoolExpr.eqBV (BVExpr.var (name_to_sym (Name.number 1)) (size (Ty.integer 8)))
              (BVExpr.const 3 8)
            :: State.new.solver.allConstraints) ∧
    (∃ s1 : State,
        State.new.record_bool_result
            { result := Name.name "b", ty := Ty.bool } (BoolExpr.const true) =
          Except.ok s1 ∧
        s1.varmap.boolVars (Name.name "b") =
          some (BoolExpr.var (name_to_sym (Name.name "b"))) ∧
        s1.solver.allConstraints =
          BoolExpr.eqBool (BoolExpr.var (name_to_sym (Name.name "b"))) (BoolExpr.const true)
            :: State.new.solver.allConstraints) :=
  ⟨(record_result_spec State.new { result := Name.number 1, ty := Ty.integer 8 }
      (BVExpr.const 3 8) (BoolExpr.const true)).1 rfl,
   (record_result_spec State.new { result := Name.name "b", ty := Ty.bool }
      (BVExpr.const 0 1) (BoolExpr.const true)).2 rfl⟩

/-- C6: recording a result fails with the type-mismatch error exactly when the
declared result type does not match the supplied value: record_bool_result
fails exactly when the declared type is not the boolean (1-bit integer) type,
and record_bv_result fails exactly when the supplied bit-vector's width
differs from the declared type's width; success occurs exactly otherwise, so
nothing is silently coerced. -/
theorem record_result_type_mismatch_spec (s : State) (thing : Instr)
    (bv : BVExpr) (b : BoolExpr) :
    (s.record_bv_result thing bv = Except.error Err.TypeMismatch ↔
        bvWidth bv ≠ size thing.ty) ∧
    ((∃ s1, s.record_bv_result thing bv = Except.ok s1) ↔
        bvWidth bv = size thing.ty) ∧
    (s.record_bool_result thing b = Except.error Err.TypeMismatch ↔
        thing.ty ≠ Ty.bool) ∧
    ((∃ s1, s.record_bool_result thing b = Except.ok s1) ↔
        thing.ty = Ty.bool) := by
  refine ⟨?_, ?_, ?_, ?_⟩
  · by_cases h : bvWidth bv = size thing.ty <;> simp [State.record_bv_result, h]
  · by_cases h : bvWidth bv = size thing.ty <;> simp [State.record_bv_result, h]
  · by_cases h2 : thing.ty = Ty.bool <;> simp [State.record_bool_result, h2]
  · by_cases h2 : thing.ty = Ty.bool <;> simp [State.record_bool_result, h2]

/-- Witness for C6: a width-16 value on an i8-typed instruction and a boolean
value on an i32-typed instruction are both rejected with the type-mismatch
error. -/
theorem record_result_type_mismatch_spec_witness :
    State.new.record_bv_result { result := Name.number 1, ty := Ty.integer 8 }
        (BVExpr.const 0 16) = Except.error Err.TypeMismatch ∧
    State.new.record_bool_result { result := Name.number 2, ty := Ty.integer 32 }
        (BoolExpr.const true) = Except.error Err.TypeMismatch :=
  ⟨(record_result_type_mismatch_spec State.new
      { result := Name.number 1, ty := Ty.integer 8 }
      (BVExpr.const 0 16) (BoolExpr.const true)).1.mpr (by decide),
   (record_result_type_mismatch_spec State.new
      { result := Name.number 2, ty := Ty.integer 32 }
      (BVExpr.const 0 16) (BoolExpr.const true)).2.2.1.mpr (by decide)⟩

/-- C7: operand resolution succeeds exactly on integer/boolean constant
literals and on references to previously bound local values; a boolean-typed
constant must have exactly 1-bit width (failing otherwise); metadata and
non-integer constant operands fail with UnsupportedOperand; an unbound local
reference fails with UnboundVariable. -/
theorem operand_resolution_spec (s : State) (bits value : Nat) (n : Name)
    (ty : Ty) :
    s.operand_to_bv (Operand.constantInt bits value) =
        Except.ok (BVExpr.const value bits) ∧
    (s.varmap.bvVars n = none →
        s.operand_to_bv (Operand.localOperand n ty) =
          Except.error Err.UnboundVariable) ∧
    (∀ e, s.varmap.bvVars n = some e →
        s.operand_to_bv (Operand.localOperand n ty) = Except.ok e) ∧
    s.operand_to_bv Operand.metadataOperand =
        Except.error Err.UnsupportedOperand ∧
    s.operand_to_bv Operand.constantOther =
        Except.error Err.UnsupportedOperand ∧
    s.operand_to_bool (Operand.constantInt 1 value) =
        Except.ok (BoolExpr.const (value != 0)) ∧
    (bits ≠ 1 →
        s.operand_to_bool (Operand.constantInt bits value) =
          Except.error Err.TypeMismatch) ∧
    (s.varmap.boolVars n = none →
        s.operand_to_bool (Operand.localOperand n ty) =
          Except.error Err.UnboundVariable) ∧
    (∀ e, s.varmap.boolVars n = some e →
        s.operand_to_bool (Operand.localOperand n ty) = Except.ok e) ∧
    s.operand_to_bool Operand.metadataOperand =
        Except.error Err.UnsupportedOperand ∧
    s.operand_to_bool Operand.constantOther =
        Except.error Err.UnsupportedOperand := by
  refine ⟨rfl, ?_, ?_, rfl, rfl, rfl, ?_, ?_, ?_, rfl, rfl⟩
  · intro h; simp [State.operand_to_bv, h]
  · intro e h; simp [State.operand_to_bv, h]
  · intro h; simp [State.operand_to_bool, h]
  · intro h; simp [State.operand_to_bool, h]
  · intro e h; simp [State.operand_to_bool, h]

/-- Witness for C7: a metadata operand is rejected as unsupported; a 32-bit
constant is rejected by operand_to_bool; a bound local resolves to its
binding; an unbound local is rejected as unbound. -/
theorem operand_resolution_spec_witness :
    State.new.operand_to_bv Operand.metadataOperand =
        Except.error Err.UnsupportedOperand ∧
    State.new.operand_to_bool (Operand.constantInt 32 0) =
        Except.error Err.TypeMismatch ∧
    (State.new.add_bv_var (Name.number 3) (BVExpr.const 5 32)).operand_to_bv
        (Operand.localOperand (Name.number 3) Ty.pointer) =
      Except.ok (BVExpr.const 5 32) ∧
    State.new.operand_to_bv (Operand.localOperand (Name.number 9) Ty.pointer) =
      Except.error Err.UnboundVariable :=
  ⟨(operand_resolution_spec State.new 32 0 (Name.number 9) Ty.pointer).2.2.2.1,
   (operand_resolution_spec State.new 32 0 (Name.number 9) Ty.pointer).2.2.2.2.2.2.1
     (by decide),
   (operand_resolution_spec (State.new.add_bv_var (Name.number 3) (BVExpr.const 5 32))
      32 0 (Name.number 3) Ty.pointer).2.2.1 (BVExpr.const 5 32) (by decide),
   (operand_resolution_spec State.new 32 0 (Name.number 9) Ty.pointer).2.1
     (by decide)⟩

/-- C8: revert_to_backtracking_point leaves the symbolic binding table
completely unchanged: for every name, its bit-vector binding and its boolean
binding after a revert equal those before. -/
theorem revert_leaves_varmap_unchanged (s : State) (n : Name) :
    s.revert_to_backtracking_point.2.varmap.bvVars n = s.varmap.bvVars n ∧
    s.revert_to_backtracking_point.2.varmap.boolVars n = s.varmap.boolVars n := by
  obtain ⟨vm, sol, btp⟩ := s
  cases btp with
  | nil => exact ⟨rfl, rfl⟩
  | cons bp rest => exact ⟨rfl, rfl⟩

/-- C9 counterexample: the numeric identity is truncated to 32 bits
(`n as u32`), so the two distinct names Number(0) and Number(2^32) map to the
same symbol — the mapping is not collision-free over all names. -/
theorem name_to_sym_collision :
    name_to_sym (Name.number 0) = name_to_sym (Name.number 4294967296) ∧
    Name.number 0 ≠ Name.number 4294967296 := by
  constructor
  · decide
  · decide

/-- Whether a name's numeric identity (if any) fits in 32 bits, i.e. survives
the `as u32` truncation unchanged. -/
def numericFits32 : Name → Bool
  | Name.name _ => true
  | Name.number k => k < 4294967296

/-- C9 amended: the translation maps every string-named identity to a string
symbol and every numeric identity to an integer symbol holding the identity
truncated to 32 bits; the mapping is a pure function of the name (stable), and
it is collision-free on names whose numeric identities fit in 32 bits. -/
theorem name_to_sym_spec_amended :
    (∀ str : String, name_to_sym (Name.name str) = Sym.string str) ∧
    (∀ k : Nat, name_to_sym (Name.number k) = Sym.int (k % 4294967296)) ∧
    (∀ n1 n2 : Name, numericFits32 n1 = true → numericFits32 n2 = true →
        n1 ≠ n2 → name_to_sym n1 ≠ name_to_sym n2) := by
  refine ⟨fun _ => rfl, fun _ => rfl, ?_⟩
  intro n1 n2 h1 h2 hne heq
  cases n1 with
  | name s1 =>
      cases n2 with
      | name s2 =>
          simp only [name_to_sym, Sym.string.injEq] at heq
          exact hne (by rw [heq])
      | number k2 => simp [name_to_sym] at heq
  | number k1 =>
      cases n2 with
      | name s2 => simp [name_to_sym] at heq
      | number k2 =>
          simp only [numericFits32, decide_eq_true_eq] at h1 h2
          simp only [name_to_sym, Sym.int.injEq,
            Nat.mod_eq_of_lt h1, Nat.mod_eq_of_lt h2] at heq
          exact hne (by rw [heq])

/-- Witness for the amended C9: two distinct small numeric names map to
distinct symbols. -/
theorem name_to_sym_spec_amended_witness :
    name_to_sym (Name.number 1) ≠ name_to_sym (Name.number 2) :=
  name_to_sym_spec_amended.2.2 (Name.number 1) (Name.number 2)
    (by decide) (by decide) (by decide)

/-- C10: when an operand is a reference to a local value, operand_to_bv and
operand_to_bool ignore the operand's declared type annotation entirely: the
result is the same for any two declared types, and when the name is bound the
result is exactly the bound expression, whatever the declared type says about
kind or width. -/
theorem operand_type_annotation_ignored (s : State) (n : Name) (ty ty2 : Ty)
    (e : BVExpr) (eb : BoolExpr) :
    s.operand_to_bv (Operand.localOperand n ty) =
        s.operand_to_bv (Operand.localOperand n ty2) ∧
    s.operand_to_bool (Operand.localOperand n ty) =
        s.operand_to_bool (Operand.localOperand n ty2) ∧
    (s.varmap.bvVars n = some e →
        s.operand_to_bv (Operand.localOperand n ty) = Except.ok e) ∧
    (s.varmap.boolVars n = some eb →
        s.operand_to_bool (Operand.localOperand n ty) = Except.ok eb) := by
  refine ⟨rfl, rfl, ?_, ?_⟩
  · intro h; simp [State.operand_to_bv, h]
  · intro h; simp [State.operand_to_bool, h]

/-- Witness for C10: a name bound to an 8-bit expression resolves, through an
operand annotated with the 32-bit integer type, to the 8-bit expression. -/
theorem operand_type_annotation_ignored_witness :
    (State.new.add_bv_var (Name.number 7) (BVExpr.const 3 8)).operand_to_bv
        (Operand.localOperand (Name.number 7) (Ty.integer 32)) =
      Except.ok (BVExpr.const 3 8) :=
  (operand_type_annotation_ignored
      (State.new.add_bv_var (Name.number 7) (BVExpr.const 3 8))
      (Name.number 7) (Ty.integer 32) (Ty.integer 8)
      (BVExpr.const 3 8) (BoolExpr.const true)).2.2.1 (by decide)

end Haybale
